import Mathlib

/-!
Verification development for the SecureWipe verification portal core
(portal/app/main.py).  The JSON data model, the RFC 8785 style
canonicalizer, SHA-256, and the certificate validation pipeline are
embedded as executable Lean definitions; the pipeline depends on three
external collaborators (the jsonschema validator over the two schema
files, base64 decoding, and the Ed25519 primitive over the loaded public
key), which are passed as explicit function parameters, mirroring section 6
of the design document (schemas and key are host-supplied).

Modelling conventions:
- a parsed JSON document is a `Json` tree; numbers are modelled as the
  integers (every claim under study is insensitive to float formatting),
  plus the distinguished float value NaN, which `json.dumps` accepts by
  default and which the spec singles out;
- Python exceptions that the source code can raise while traversing a
  document (`AttributeError` from calling `.get`, `.lower`, `.copy`,
  `.pop` on a value of the wrong type) are modelled with `Except String`;
  the exact interpreter message text is imitated but only its prefix
  structure is relied upon;
- raw request bytes are `List Nat` (byte values).
-/

/-- A parsed JSON value as produced by Python json.loads: object member
order is the textual order of the document; numbers are restricted to
integers plus the NaN float. -/
inductive Json where
  | null : Json
  | bool (b : Bool) : Json
  | num (n : Int) : Json
  | nan : Json
  | str (s : String) : Json
  | arr (elems : List Json) : Json
  | obj (fields : List (String × Json)) : Json
deriving Repr

/-- Python truthiness of a parsed JSON value: None, False, 0, empty
string, empty list and empty dict are falsy; NaN is truthy. -/
def pyTruthy : Json → Bool
  | .null => false
  | .bool b => b
  | .num n => n != 0
  | .nan => true
  | .str s => s != ""
  | .arr xs => !xs.isEmpty
  | .obj fs => !fs.isEmpty

/-- Python type name of a parsed JSON value, used in imitated
AttributeError texts. -/
def pyTypeName : Json → String
  | .null => "NoneType"
  | .bool _ => "bool"
  | .num _ => "int"
  | .nan => "float"
  | .str _ => "str"
  | .arr _ => "list"
  | .obj _ => "dict"

mutual
/-- Python equality on parsed JSON values. True equals 1 and False
equals 0 (bool is an int subclass), NaN is not equal to anything
including itself, and dict comparison is key based. -/
def pyEq : Json → Json → Bool
  | .null, .null => true
  | .bool a, .bool b => a == b
  | .bool a, .num n => n == (if a then 1 else 0)
  | .num n, .bool a => n == (if a then 1 else 0)
  | .num a, .num b => a == b
  | .str a, .str b => a == b
  | .arr xs, .arr ys => xs.length == ys.length && pyEqList xs ys
  | .obj fs, .obj gs => fs.length == gs.length && pyEqFields fs gs
  | _, _ => false
termination_by structural v _ => v

/-- Elementwise Python equality of two lists (already known to have equal
length at the call site). -/
def pyEqList : List Json → List Json → Bool
  | [], _ => true
  | _ :: _, [] => false
  | x :: xs, y :: ys => pyEq x y && pyEqList xs ys
termination_by structural l _ => l

/-- Each member of the first dict is looked up in the second and the
values compared; with equal sizes and the duplicate-free keys of real
Python dicts this is Python dict equality. -/
def pyEqFields : List (String × Json) → List (String × Json) → Bool
  | [], _ => true
  | (k, v) :: fs, gs =>
      (match gs.lookup k with
       | some w => pyEq v w
       | none => false) && pyEqFields fs gs
termination_by structural l _ => l
end

/-- Python getattr-style dict get with a default: raises AttributeError
when the receiver is not a dict. -/
def pyGetD : Json → String → Json → Except String Json
  | .obj fs, k, d => .ok ((fs.lookup k).getD d)
  | v, _, _ =>
      .error ("\x27" ++ pyTypeName v ++ "\x27 object has no attribute \x27get\x27")

/-- Remove the first binding of a key from an association list (dict keys
are unique, so this is Python del d[k] / d.pop(k)). -/
def delKey : List (String × Json) → String → List (String × Json)
  | [], _ => []
  | (k, v) :: fs, key => if k == key then fs else (k, v) :: delKey fs key

mutual
/-- Python repr of a parsed JSON value (the form f-strings use for
containers).  String repr is approximated with plain single quotes; no
claim inspects the repr of a string containing quote characters. -/
def pyRepr : Json → String
  | .null => "None"
  | .bool b => if b then "True" else "False"
  | .num n => toString n
  | .nan => "nan"
  | .str s => "\x27" ++ s ++ "\x27"
  | .arr xs => "[" ++ pyReprList xs ++ "]"
  | .obj fs => "\x7b" ++ pyReprFields fs ++ "\x7d"
termination_by structural v => v

/-- Comma separated reprs of list elements. -/
def pyReprList : List Json → String
  | [] => ""
  | [x] => pyRepr x
  | x :: y :: rest => pyRepr x ++ ", " ++ pyReprList (y :: rest)
termination_by structural l => l

/-- Comma separated key: value reprs of dict members. -/
def pyReprFields : List (String × Json) → String
  | [] => ""
  | [(k, v)] => "\x27" ++ k ++ "\x27: " ++ pyRepr v
  | (k, v) :: f :: rest =>
      "\x27" ++ k ++ "\x27: " ++ pyRepr v ++ ", " ++ pyReprFields (f :: rest)
termination_by structural l => l
end

/-- Python str() of a parsed JSON value, as interpolated by f-strings. -/
def pyStr : Json → String
  | .str s => s
  | v => pyRepr v

/-- ASCII lowercasing, the effect of Python str.lower on the ASCII
strings (hex digests) the pipeline compares. -/
def asciiLower (s : String) : String :=
  ⟨s.data.map Char.toLower⟩

/-! ## Canonicalizer (canonicalize_json, main.py lines 107 to 133) -/

/-- Lexicographic comparison of character lists by code point, the order
Python uses to compare strings. -/
def charListLe : List Char → List Char → Bool
  | [], _ => true
  | _ :: _, [] => false
  | a :: as, b :: bs =>
      if a.toNat < b.toNat then true
      else if b.toNat < a.toNat then false
      else charListLe as bs

/-- Key order used by Python sorted(val.items()): member name first; dict
keys are unique, so tuple comparison never reaches the values. -/
def fieldLe (p q : String × Json) : Prop := charListLe p.1.data q.1.data = true

instance : DecidableRel fieldLe := fun p q =>
  inferInstanceAs (Decidable (charListLe p.1.data q.1.data = true))

/-- Stable sort of dict members by key, the effect of Python
sorted(val.items()) on a dict. -/
def sortFields (fs : List (String × Json)) : List (String × Json) :=
  List.insertionSort fieldLe fs

mutual
/-- Recursive canonical form: objects have their members sorted by key at
every level (main.py canonicalize_value).  The source sorts each dict
before recursing into the values; since the sort key is the member name
only and recursion preserves names, sorting after recursion builds the
same dict (the lemma canonFields_sortFields below makes this exact). -/
def canonicalize_value : Json → Json
  | .null => .null
  | .bool b => .bool b
  | .num n => .num n
  | .nan => .nan
  | .str s => .str s
  | .arr xs => .arr (canonList xs)
  | .obj fs => .obj (sortFields (canonFields fs))
termination_by structural v => v

/-- Canonicalize the elements of an array in original order. -/
def canonList : List Json → List Json
  | [] => []
  | x :: xs => canonicalize_value x :: canonList xs
termination_by structural l => l

/-- Canonicalize the value of every dict member, keeping names. -/
def canonFields : List (String × Json) → List (String × Json)
  | [] => []
  | (k, v) :: fs => (k, canonicalize_value v) :: canonFields fs
termination_by structural l => l
end

/-- Lowercase hex digits, as used by the json module escape helpers and by
hexdigest. -/
def hexDigit (n : Nat) : Char :=
  (("0123456789abcdef".data).getD n '0')

/-- Four digit lowercase hex escape, the \uXXXX form of json.dumps. -/
def uEscape (n : Nat) : String :=
  "\\u" ++ ⟨[hexDigit (n / 4096 % 16), hexDigit (n / 256 % 16),
             hexDigit (n / 16 % 16), hexDigit (n % 16)]⟩

/-- Escape one character the way json.dumps does: always escape the
quote, the backslash and control characters; with ensure_ascii also
escape every character outside the printable ASCII range, using UTF-16
surrogate pairs above the basic plane. -/
def escapeChar (ensureAscii : Bool) (c : Char) : String :=
  if c = '"' then "\\\""
  else if c = '\\' then "\\\\"
  else if c = '\n' then "\\n"
  else if c = '\t' then "\\t"
  else if c = '\r' then "\\r"
  else if c.toNat = 8 then "\\b"
  else if c.toNat = 12 then "\\f"
  else if c.toNat < 32 then uEscape c.toNat
  else if ensureAscii && decide (127 ≤ c.toNat) then
    if c.toNat < 65536 then uEscape c.toNat
    else uEscape (55296 + (c.toNat - 65536) / 1024) ++
         uEscape (56320 + (c.toNat - 65536) % 1024)
  else String.singleton c

/-- JSON string literal as emitted by json.dumps. -/
def encodeJsonString (ensureAscii : Bool) (s : String) : String :=
  "\"" ++ (s.data.map (escapeChar ensureAscii)).foldr (· ++ ·) "" ++ "\""

mutual
/-- json.dumps with separators (",", ":"): compact serialization of a
value, members in dict order, integers in decimal, NaN as the literal
token NaN (allow_nan is left at its default). -/
def jsonDumpsVal (ensureAscii : Bool) : Json → String
  | .null => "null"
  | .bool b => if b then "true" else "false"
  | .num n => toString n
  | .nan => "NaN"
  | .str s => encodeJsonString ensureAscii s
  | .arr xs => "[" ++ jsonDumpsList ensureAscii xs ++ "]"
  | .obj fs => "\x7b" ++ jsonDumpsFields ensureAscii fs ++ "\x7d"
termination_by structural v => v

/-- Comma separated serializations of array elements. -/
def jsonDumpsList (ensureAscii : Bool) : List Json → String
  | [] => ""
  | [x] => jsonDumpsVal ensureAscii x
  | x :: y :: rest =>
      jsonDumpsVal ensureAscii x ++ "," ++ jsonDumpsList ensureAscii (y :: rest)
termination_by structural l => l

/-- Comma separated key, colon, value serializations of dict members. -/
def jsonDumpsFields (ensureAscii : Bool) : List (String × Json) → String
  | [] => ""
  | [(k, v)] => encodeJsonString ensureAscii k ++ ":" ++ jsonDumpsVal ensureAscii v
  | (k, v) :: f :: rest =>
      encodeJsonString ensureAscii k ++ ":" ++ jsonDumpsVal ensureAscii v ++ "," ++
      jsonDumpsFields ensureAscii (f :: rest)
termination_by structural l => l
end

/-- UTF-8 bytes of one code point. -/
def utf8Char (c : Nat) : List Nat :=
  if c < 128 then [c]
  else if c < 2048 then [192 + c / 64, 128 + c % 64]
  else if c < 65536 then [224 + c / 4096, 128 + c / 64 % 64, 128 + c % 64]
  else [240 + c / 262144, 128 + c / 4096 % 64, 128 + c / 64 % 64, 128 + c % 64]

/-- UTF-8 encoding of a string (str.encode("utf-8")). -/
def utf8Bytes (s : String) : List Nat :=
  s.data.foldr (fun ch acc => utf8Char ch.toNat ++ acc) []

/-- Canonical bytes of a JSON value: sort object members at every level,
serialize compactly with ensure_ascii False, encode as UTF-8 (the body of
canonicalize_json in main.py). -/
def canonicalBytes (value : Json) : List Nat :=
  utf8Bytes (jsonDumpsVal false (canonicalize_value value))

/-- canonicalize_json from main.py.  The Except result type records where
a serialization error would surface; json.dumps is called with its
default allow_nan = True, so no value of this JSON domain is rejected,
NaN included. -/
def canonicalize_json (value : Json) : Except String (List Nat) :=
  .ok (canonicalBytes value)

/-! ## SHA-256 (compute_certificate_hash, main.py lines 226 to 228) -/

/-- Addition of 32 bit words. -/
def add32 (a b : Nat) : Nat := (a + b) % 4294967296

/-- Right rotation of a 32 bit word. -/
def rotr32 (n x : Nat) : Nat := x / 2 ^ n + x % 2 ^ n * 2 ^ (32 - n)

/-- SHA-256 big sigma 0. -/
def bigSigma0 (x : Nat) : Nat := rotr32 2 x ^^^ rotr32 13 x ^^^ rotr32 22 x

/-- SHA-256 big sigma 1. -/
def bigSigma1 (x : Nat) : Nat := rotr32 6 x ^^^ rotr32 11 x ^^^ rotr32 25 x

/-- SHA-256 small sigma 0. -/
def smallSigma0 (x : Nat) : Nat := rotr32 7 x ^^^ rotr32 18 x ^^^ (x >>> 3)

/-- SHA-256 small sigma 1. -/
def smallSigma1 (x : Nat) : Nat := rotr32 17 x ^^^ rotr32 19 x ^^^ (x >>> 10)

/-- SHA-256 choose function. -/
def sha256Ch (x y z : Nat) : Nat := (x &&& y) ^^^ ((x ^^^ 4294967295) &&& z)

/-- SHA-256 majority function. -/
def sha256Maj (x y z : Nat) : Nat := (x &&& y) ^^^ (x &&& z) ^^^ (y &&& z)

/-- The 64 SHA-256 round constants. -/
def sha256K : List Nat :=
  [1116352408, 1899447441, 3049323471, 3921009573,
   961987163, 1508970993, 2453635748, 2870763221,
   3624381080, 310598401, 607225278, 1426881987,
   1925078388, 2162078206, 2614888103, 3248222580,
   3835390401, 4022224774, 264347078, 604807628,
   770255983, 1249150122, 1555081692, 1996064986,
   2554220882, 2821834349, 2952996808, 3210313671,
   3336571891, 3584528711, 113926993, 338241895,
   666307205, 773529912, 1294757372, 1396182291,
   1695183700, 1986661051, 2177026350, 2456956037,
   2730485921, 2820302411, 3259730800, 3345764771,
   3516065817, 3600352804, 4094571909, 275423344,
   430227734, 506948616, 659060556, 883997877,
   958139571, 1322822218, 1537002063, 1747873779,
   1955562222, 2024104815, 2227730452, 2361852424,
   2428436474, 2756734187, 3204031479, 3329325298]

/-- Merkle-Damgard padding: one 0x80 byte, zeros to 56 mod 64, then the
bit length in 8 big endian bytes. -/
def sha256Pad (msg : List Nat) : List Nat :=
  let L := msg.length
  let z := (119 - L % 64) % 64
  let bits := 8 * L
  msg ++ [128] ++ List.replicate z 0 ++
    [bits / 2 ^ 56 % 256, bits / 2 ^ 48 % 256, bits / 2 ^ 40 % 256,
     bits / 2 ^ 32 % 256, bits / 2 ^ 24 % 256, bits / 2 ^ 16 % 256,
     bits / 2 ^ 8 % 256, bits % 256]

/-- Big endian 32 bit words from bytes. -/
def bytesToWords : List Nat → List Nat
  | a :: b :: c :: d :: rest =>
      (a * 16777216 + b * 65536 + c * 256 + d) :: bytesToWords rest
  | _ => []

/-- Extend the 16 block words by n further schedule words. -/
def sha256Schedule (ws : List Nat) : Nat → List Nat
  | 0 => ws
  | n + 1 =>
      let prev := sha256Schedule ws n
      let t := prev.length
      prev ++ [add32 (add32 (smallSigma1 (prev.getD (t - 2) 0)) (prev.getD (t - 7) 0))
                     (add32 (smallSigma0 (prev.getD (t - 15) 0)) (prev.getD (t - 16) 0))]

/-- The eight 32 bit working variables of SHA-256. -/
structure Sha256State where
  a : Nat
  b : Nat
  c : Nat
  d : Nat
  e : Nat
  f : Nat
  g : Nat
  h : Nat

/-- One SHA-256 round. -/
def sha256Round (s : Sha256State) (kw : Nat × Nat) : Sha256State :=
  let t1 := add32 s.h (add32 (bigSigma1 s.e) (add32 (sha256Ch s.e s.f s.g) (add32 kw.1 kw.2)))
  let t2 := add32 (bigSigma0 s.a) (sha256Maj s.a s.b s.c)
  ⟨add32 t1 t2, s.a, s.b, s.c, add32 s.d t1, s.e, s.f, s.g⟩

/-- Compress one 64 byte block into the running state. -/
def sha256Compress (hs : Sha256State) (block : List Nat) : Sha256State :=
  let ws := sha256Schedule (bytesToWords block) 48
  let s := (sha256K.zip ws).foldl sha256Round hs
  ⟨add32 hs.a s.a, add32 hs.b s.b, add32 hs.c s.c, add32 hs.d s.d,
   add32 hs.e s.e, add32 hs.f s.f, add32 hs.g s.g, add32 hs.h s.h⟩

/-- Split a byte list into 64 byte blocks; the fuel argument only bounds
the recursion depth (the list length is always a sufficient bound, since
every step drops at least one element from a nonempty list). -/
def chunks64Go : Nat → List Nat → List (List Nat)
  | _, [] => []
  | 0, _ => []
  | fuel + 1, x :: rest => ((x :: rest).take 64) :: chunks64Go fuel ((x :: rest).drop 64)

/-- Split a byte list into 64 byte blocks. -/
def chunks64 (l : List Nat) : List (List Nat) := chunks64Go l.length l

/-- The SHA-256 initialization vector. -/
def sha256Init : Sha256State :=
  ⟨1779033703, 3144134277, 1013904242, 2773480762,
   1359893119, 2600822924, 528734635, 1541459225⟩

/-- SHA-256 digest bytes of a message. -/
def sha256Bytes (msg : List Nat) : List Nat :=
  let fin := (chunks64 (sha256Pad msg)).foldl sha256Compress sha256Init
  [fin.a, fin.b, fin.c, fin.d, fin.e, fin.f, fin.g, fin.h].foldr
    (fun w acc => [w / 2 ^ 24 % 256, w / 2 ^ 16 % 256, w / 2 ^ 8 % 256, w % 256] ++ acc) []

/-- Two lowercase hex digits of a byte. -/
def byteHex (b : Nat) : String := ⟨[hexDigit (b / 16 % 16), hexDigit (b % 16)]⟩

/-- Lowercase hex digest of a message (hashlib sha256 hexdigest). -/
def sha256hex (msg : List Nat) : String :=
  (sha256Bytes msg).foldr (fun b acc => byteHex b ++ acc) ""

/-- compute_certificate_hash from main.py: the SHA-256 hex digest of the
certificate JSON bytes. -/
def compute_certificate_hash (cert_json_bytes : List Nat) : String :=
  sha256hex cert_json_bytes


/-! ## Data model of the pipeline (main.py lines 141 to 180) -/

/-- Outcome of the external jsonschema validator on one document: none
when the document conforms to the selected schema, otherwise the first
violation, carrying the message and path of the raised ValidationError. -/
structure SchemaErr where
  message : String
  path : List String

/-- Which of the two fixed, host-supplied schema documents is selected. -/
inductive SchemaId where
  | backup : SchemaId
  | wipe : SchemaId
deriving Repr, DecidableEq

/-- The aggregate report (the pydantic VerificationResult model); the
computed dict, which always holds exactly the keys
certificate_json_sha256 and linked_backup_sha256, is flattened into two
fields. -/
structure VerificationResult where
  schema_valid : Bool
  signature_valid : Option Bool
  hash_valid : Option Bool
  chain_valid : Option Bool
  cert_summary : List (String × Json)
  computed_certificate_json_sha256 : String
  computed_linked_backup_sha256 : Option String
  errors : List String
deriving Repr

/-- extract_cert_summary from main.py: pull the identifying fields out of
the certificate, best effort; calling .get on a non-dict raises. -/
def extract_cert_summary (cert_data : Json) : Except String (List (String × Json)) := do
  let cert_id ← pyGetD cert_data "cert_id" (.str "unknown")
  let cert_type ← pyGetD cert_data "cert_type" (.str "unknown")
  let device ← pyGetD cert_data "device" (.obj [])
  let model ← pyGetD device "model" (.str "unknown")
  let base := [("cert_id", cert_id), ("cert_type", cert_type), ("device_model", model)]
  let ct ← pyGetD cert_data "cert_type" .null
  if pyEq ct (.str "wipe") then do
    let policy ← pyGetD cert_data "policy" (.obj [])
    let nist_level ← pyGetD policy "nist_level" (.str "unknown")
    let method ← pyGetD policy "method" (.str "unknown")
    return base ++ [("policy_method_or_destination",
      .str (pyStr nist_level ++ " - " ++ pyStr method))]
  else if pyEq ct (.str "backup") then do
    let destination ← pyGetD cert_data "destination" (.obj [])
    if pyTruthy destination then do
      let dtype ← pyGetD destination "type" (.str "unknown")
      let dlabel ← pyGetD destination "label" (.str "unlabeled")
      return base ++ [("policy_method_or_destination",
        .str (pyStr dtype ++ " (" ++ pyStr dlabel ++ ")"))]
    else
      return base ++ [("policy_method_or_destination", .str "backup")]
  else
    return base

/-! ## Signature verification (main.py lines 183 to 223) -/

/-- verify_ed25519_signature from main.py.  The two cryptographic
collaborators are parameters: b64 models base64.b64decode (none when
decoding raises, which also covers non-string input), and ed25519Verify
models VerifyKey(PUBLIC_KEY_BYTES).verify on canonical bytes and
signature bytes.  Inside the try block of the source every failure
collapses to false; an AttributeError raised before it (receiver of .get
not a dict) propagates to the caller as an error value. -/
def verify_ed25519_signature (b64 : Json → Option (List Nat))
    (ed25519Verify : List Nat → List Nat → Bool) (cert_data : Json) :
    Except String (Option Bool) := do
  let signature_obj ← pyGetD cert_data "signature" .null
  if !pyTruthy signature_obj then return none
  let alg ← pyGetD signature_obj "alg" .null
  let pubkey_id ← pyGetD signature_obj "pubkey_id" .null
  if !(pyEq alg (.str "Ed25519")) || !(pyEq pubkey_id (.str "sih_root_v1")) then
    return (some false)
  let sig_b64 ← pyGetD signature_obj "sig" .null
  if !pyTruthy sig_b64 then return (some false)
  match b64 sig_b64 with
  | none => return (some false)
  | some signature_bytes =>
    let unsigned_cert : Json :=
      match cert_data with
      | .obj fs => .obj (delKey fs "signature")
      | v => v
    match canonicalize_json unsigned_cert with
    | .error _ => return (some false)
    | .ok canonical_bytes => return (some (ed25519Verify canonical_bytes signature_bytes))

/-! ## Chain linkage (main.py lines 231 to 251) -/

/-- validate_chain_linkage from main.py: none when no linkage information
is provided, a boolean identifier comparison otherwise. -/
def validate_chain_linkage (wipe_cert : Json) (linked_backup_cert : Option Json) :
    Except String (Option Bool) := do
  match linked_backup_cert with
  | none => return none
  | some linked =>
    if !pyTruthy linked then return none
    let linkage ← pyGetD wipe_cert "linkage" (.obj [])
    let backup_cert_id ← pyGetD linkage "backup_cert_id" .null
    if !pyTruthy backup_cert_id then return none
    let linked_cert_id ← pyGetD linked "cert_id" .null
    return some (pyEq backup_cert_id linked_cert_id)

/-! ## validate_certificate (main.py lines 254 to 373) -/

/-- The " -> " joined path of a schema violation. -/
def joinArrow (ps : List String) : String := String.intercalate " -> " ps

/-- The schema validation block of validate_certificate: verdict and the
one or two error lines taken from the raised ValidationError. -/
def schemaStep (check : Option SchemaErr) : Bool × List String :=
  match check with
  | none => (true, [])
  | some e =>
      (false, ["Schema validation error: " ++ e.message] ++
        (if e.path.isEmpty then [] else ["At path: " ++ joinArrow e.path]))

/-- The signature block of validate_certificate: a false verdict appends
one advisory line; an escaped exception is caught here and also yields
false. -/
def signatureStep (b64 : Json → Option (List Nat))
    (ed25519Verify : List Nat → List Nat → Bool) (cert_data : Json) :
    Option Bool × List String :=
  match verify_ed25519_signature b64 ed25519Verify cert_data with
  | .ok v => (v, if v == some false then ["Invalid Ed25519 signature"] else [])
  | .error m => (some false, ["Signature verification error: " ++ m])

/-- The hash block of validate_certificate, reached only for backup
certificates: the declared digest is compared case insensitively against
the recomputed one; a falsy declared value skips the check; a truthy
non-string raises (no .lower attribute) out to the enclosing handler. -/
def hashStep (cert_data : Json) (computed_hash : String) :
    Except String (Option Bool × List String) := do
  let metadata ← pyGetD cert_data "metadata" (.obj [])
  let expected_hash ← pyGetD metadata "certificate_json_sha256" .null
  if !pyTruthy expected_hash then return (none, [])
  match expected_hash with
  | .str s =>
      if asciiLower s == asciiLower computed_hash then return (some true, [])
      else return (some false,
        ["Certificate hash mismatch: expected " ++ s ++ ", got " ++ computed_hash])
  | v => throw ("\x27" ++ pyTypeName v ++ "\x27 object has no attribute \x27lower\x27")

/-- The chain block of validate_certificate, reached only for wipe
certificates with a truthy linked certificate: a linked schema violation
is caught first and leaves the linked digest unset; otherwise the digest
of the compactly re-serialized linked certificate (json.dumps with its
default ensure_ascii) is recorded and then the identifier comparison
runs, its own exceptions caught into a false verdict. -/
def chainStep (sc : SchemaId → Json → Option SchemaErr) (cert_data linked : Json) :
    Option Bool × Option String × List String :=
  match sc .backup linked with
  | some e => (some false, none, ["Linked backup certificate schema error: " ++ e.message])
  | none =>
      let linked_backup_bytes := utf8Bytes (jsonDumpsVal true linked)
      let sha := compute_certificate_hash linked_backup_bytes
      match validate_chain_linkage cert_data (some linked) with
      | .ok cv => (cv, some sha,
          if cv == some false then ["Chain linkage validation failed: backup_cert_id mismatch"]
          else [])
      | .error m => (some false, some sha, ["Chain validation error: " ++ m])

/-- validate_certificate from main.py: type detection with two early
returns, then the four independent check blocks; an exception escaping a
block lands in the enclosing handler, which appends one unexpected-error
line and returns what has been computed so far. -/
def validate_certificate (sc : SchemaId → Json → Option SchemaErr)
    (b64 : Json → Option (List Nat)) (ed25519Verify : List Nat → List Nat → Bool)
    (cert_data : Json) (cert_json_bytes : List Nat) (linked_backup_cert : Option Json) :
    VerificationResult :=
  let computed_hash := compute_certificate_hash cert_json_bytes
  match pyGetD cert_data "cert_type" .null with
  | .error m =>
      ⟨false, none, none, none, [], computed_hash, none,
        ["Unexpected error during validation: " ++ m]⟩
  | .ok cert_type =>
    if !pyTruthy cert_type then
      ⟨false, none, none, none, [], computed_hash, none, ["Missing \x27cert_type\x27 field"]⟩
    else if !(pyEq cert_type (.str "backup")) && !(pyEq cert_type (.str "wipe")) then
      ⟨false, none, none, none, [], computed_hash, none,
        ["Unknown certificate type: " ++ pyStr cert_type]⟩
    else
      let sid : SchemaId := if pyEq cert_type (.str "backup") then .backup else .wipe
      let s1 := schemaStep (sc sid cert_data)
      let s2 := signatureStep b64 ed25519Verify cert_data
      match (if pyEq cert_type (.str "backup") then hashStep cert_data computed_hash
             else .ok (none, [])) with
      | .error m =>
          ⟨s1.1, s2.1, none, none, [], computed_hash, none,
            s1.2 ++ s2.2 ++ ["Unexpected error during validation: " ++ m]⟩
      | .ok s3 =>
        let s4 : Option Bool × Option String × List String :=
          match linked_backup_cert with
          | some linked =>
              if pyEq cert_type (.str "wipe") && pyTruthy linked then
                chainStep sc cert_data linked
              else (none, none, [])
          | none => (none, none, [])
        match extract_cert_summary cert_data with
        | .error m =>
            ⟨s1.1, s2.1, s3.1, s4.1, [], computed_hash, s4.2.1,
              s1.2 ++ s2.2 ++ s3.2 ++ s4.2.2 ++ ["Unexpected error during validation: " ++ m]⟩
        | .ok summary =>
            ⟨s1.1, s2.1, s3.1, s4.1, summary, computed_hash, s4.2.1,
              s1.2 ++ s2.2 ++ s3.2 ++ s4.2.2⟩

/-! ## The POST /verify handler (main.py lines 484 to 529) -/

/-- Python .copy(): dict and list have the attribute, the other JSON
values raise AttributeError. -/
def pyCopy : Json → Except String Json
  | .obj fs => .ok (.obj fs)
  | .arr xs => .ok (.arr xs)
  | v => .error ("\x27" ++ pyTypeName v ++ "\x27 object has no attribute \x27copy\x27")

/-- Python membership test on the result of a successful copy: key
membership for dicts, element membership (Python equality) for lists. -/
def pyContains (needle : String) : Json → Bool
  | .obj fs => fs.any (fun p => p.1 == needle)
  | .arr xs => xs.any (fun x => pyEq x (.str needle))
  | _ => false

/-- dict.pop(key) returning the value and the remaining dict; on a list
the string index makes list.pop raise TypeError. -/
def pyPop (key : String) : Json → Except String (Json × Json)
  | .obj fs => .ok ((fs.lookup key).getD .null, .obj (delKey fs key))
  | _ => .error ("\x27str\x27 object cannot be interpreted as an integer")

/-- The POST /verify handler (verify_certificate in main.py), applied to
the parsed request value together with the raw body bytes it was parsed
from; the unparsable-JSON 400 rejection happens before any value exists
and therefore before this function.  A transport error is a status code
with detail: 400 for an empty body, 500 for an exception escaping the
handler body. -/
def verify_certificate (sc : SchemaId → Json → Option SchemaErr)
    (b64 : Json → Option (List Nat)) (ed25519Verify : List Nat → List Nat → Bool)
    (request_data : Json) (body : List Nat) : Except (Nat × String) VerificationResult :=
  if body.isEmpty then .error (400, "Empty request body")
  else
    match pyCopy request_data with
    | .error m => .error (500, "Internal server error: " ++ m)
    | .ok cert_data =>
      if pyContains "linked_backup_cert" cert_data then
        match pyPop "linked_backup_cert" cert_data with
        | .error m => .error (500, "Internal server error: " ++ m)
        | .ok (linked, cert_rest) =>
            .ok (validate_certificate sc b64 ed25519Verify cert_rest body (some linked))
      else
        .ok (validate_certificate sc b64 ed25519Verify cert_data body none)

/-! ## Claims -/

/-- C8: verifying the empty JSON object yields schema_valid false, all
three nullable verdicts null, an empty summary, and exactly one error
naming the missing cert_type discriminator; the result is the same for
every schema validator, base64 decoder and signature primitive (no schema
lookup or other check is attempted) and for every raw byte sequence. -/
theorem c8_empty_object_short_circuits
    (sc : SchemaId → Json → Option SchemaErr) (b64 : Json → Option (List Nat))
    (ed25519Verify : List Nat → List Nat → Bool) (body : List Nat) :
    validate_certificate sc b64 ed25519Verify (.obj []) body none =
      ⟨false, none, none, none, [], compute_certificate_hash body, none,
        ["Missing \x27cert_type\x27 field"]⟩ := rfl

/-- C9, counterexample: canonicalize_json does not fail on NaN.  With the
json.dumps default allow_nan it succeeds and emits the literal token NaN,
which is not valid JSON, instead of raising any error. -/
theorem c9_counterexample_nan_succeeds :
    canonicalize_json Json.nan = Except.ok (utf8Bytes "NaN") := rfl

/-- C9, amended: canonicalize_json has no error conditions at all: it
succeeds on every value of the JSON domain, including the
non-representable NaN, which it serializes as the literal token NaN
rather than rejecting. -/
theorem c9_amended_no_error_conditions :
    (∀ value : Json, ∃ bs, canonicalize_json value = Except.ok bs) ∧
    canonicalize_json Json.nan = Except.ok (utf8Bytes "NaN") :=
  ⟨fun value => ⟨canonicalBytes value, rfl⟩, rfl⟩

/-- C3: when the signature block is a present, nonempty object whose alg
tag is not exactly Ed25519 or whose pubkey_id is not exactly sih_root_v1,
verify_ed25519_signature returns false without attempting any
cryptographic work: the result is ok (some false) for every base64
decoder and every Ed25519 primitive alike, so no decode, canonicalization
or key operation can influence it. -/
theorem c3_algorithm_key_pinning
    (b64 b64' : Json → Option (List Nat)) (ed ed' : List Nat → List Nat → Bool)
    (fs gs : List (String × Json))
    (hsig : fs.lookup "signature" = some (.obj gs)) (ht : pyTruthy (.obj gs) = true)
    (hpin : pyEq ((gs.lookup "alg").getD .null) (.str "Ed25519") = false ∨
            pyEq ((gs.lookup "pubkey_id").getD .null) (.str "sih_root_v1") = false) :
    verify_ed25519_signature b64 ed (.obj fs) = .ok (some false) ∧
    verify_ed25519_signature b64 ed (.obj fs) = verify_ed25519_signature b64' ed' (.obj fs) := by
  have key : ∀ (b : Json → Option (List Nat)) (e : List Nat → List Nat → Bool),
      verify_ed25519_signature b e (.obj fs) = .ok (some false) := by
    intro b e
    rcases hpin with h | h <;>
      simp [verify_ed25519_signature, pyGetD, hsig, ht, h, bind, Except.bind, pure, Except.pure]
  exact ⟨key b64 ed, (key b64 ed).trans (key b64' ed').symm⟩

/-- C3 witness: a concrete certificate whose signature block carries the
unexpected algorithm tag RSA is rejected deterministically, for two
different collaborator pairs. -/
theorem c3_algorithm_key_pinning_witness :
    ([("signature", Json.obj [("alg", Json.str "RSA"), ("pubkey_id", Json.str "sih_root_v1"),
        ("sig", Json.str "AAAA")])].lookup "signature" =
      some (.obj [("alg", Json.str "RSA"), ("pubkey_id", Json.str "sih_root_v1"),
        ("sig", Json.str "AAAA")])) ∧
    verify_ed25519_signature (fun _ => none) (fun _ _ => false)
      (.obj [("signature", Json.obj [("alg", Json.str "RSA"), ("pubkey_id", Json.str "sih_root_v1"),
        ("sig", Json.str "AAAA")])]) = .ok (some false) :=
  ⟨rfl,
    (c3_algorithm_key_pinning (fun _ => none) (fun _ => some []) (fun _ _ => false)
      (fun _ _ => true)
      [("signature", Json.obj [("alg", Json.str "RSA"), ("pubkey_id", Json.str "sih_root_v1"),
        ("sig", Json.str "AAAA")])]
      [("alg", Json.str "RSA"), ("pubkey_id", Json.str "sih_root_v1"), ("sig", Json.str "AAAA")]
      rfl (by decide) (Or.inl (by decide))).1⟩

/-- C2, amended: for a backup certificate (with a dict metadata field or
none at all), hash_valid is the case insensitive comparison of the
declared digest string against the SHA-256 of the exact received bytes,
with one error naming both values on mismatch; the check is skipped
(null) when the field is absent or an empty string, the empty string
counting as undeclared by the falsiness test of the source. -/
theorem c2_amended_hash_round_trip
    (sc : SchemaId → Json → Option SchemaErr) (b64 : Json → Option (List Nat))
    (ed : List Nat → List Nat → Bool) (fs ms : List (String × Json))
    (bytes : List Nat) (linked : Option Json)
    (hb : fs.lookup "cert_type" = some (.str "backup")) :
    (fs.lookup "metadata" = none →
      (validate_certificate sc b64 ed (.obj fs) bytes linked).hash_valid = none) ∧
    (fs.lookup "metadata" = some (.obj ms) →
      (ms.lookup "certificate_json_sha256" = none →
        (validate_certificate sc b64 ed (.obj fs) bytes linked).hash_valid = none) ∧
      (∀ e, ms.lookup "certificate_json_sha256" = some (.str e) →
        (e = "" →
          (validate_certificate sc b64 ed (.obj fs) bytes linked).hash_valid = none) ∧
        (e ≠ "" →
          (validate_certificate sc b64 ed (.obj fs) bytes linked).hash_valid =
            some (asciiLower e == asciiLower (compute_certificate_hash bytes)) ∧
          (asciiLower e ≠ asciiLower (compute_certificate_hash bytes) →
            ("Certificate hash mismatch: expected " ++ e ++ ", got " ++
              compute_certificate_hash bytes) ∈
              (validate_certificate sc b64 ed (.obj fs) bytes linked).errors)))) := by
  constructor
  · intro hm
    cases h4 : extract_cert_summary (.obj fs) <;>
      simp [validate_certificate, pyGetD, hb, hm, hashStep, pyEq, pyTruthy, h4,
        bind, Except.bind, pure, Except.pure]
  · intro hm
    constructor
    · intro he
      cases h4 : extract_cert_summary (.obj fs) <;>
        simp [validate_certificate, pyGetD, hb, hm, he, hashStep, pyEq, pyTruthy, h4,
          bind, Except.bind, pure, Except.pure]
    · intro e he
      constructor
      · intro hemp
        subst hemp
        cases h4 : extract_cert_summary (.obj fs) <;>
          simp [validate_certificate, pyGetD, hb, hm, he, hashStep, pyEq, pyTruthy, h4,
            bind, Except.bind, pure, Except.pure]
      · intro hne
        have htr : pyTruthy (.str e) = true := by
          simp [pyTruthy, hne]
        by_cases hcmp : asciiLower e = asciiLower (compute_certificate_hash bytes) <;>
          cases h4 : extract_cert_summary (.obj fs) <;> cases linked <;>
            simp [validate_certificate, pyGetD, hb, hm, he, hne, htr, hcmp, beq_iff_eq,
              hashStep, pyEq, pyTruthy, h4, bind, Except.bind, pure, Except.pure]

/-- C2, counterexample: a backup certificate whose
metadata.certificate_json_sha256 is present but the empty string is a
present-and-mismatched declared digest (no digest of any bytes is
empty), yet the source skips the check because the empty string is
falsy, leaving hash_valid null instead of the false the claim requires. -/
theorem c2_counterexample_empty_string_hash_skipped :
    asciiLower "" ≠ asciiLower (compute_certificate_hash [120]) ∧
    (validate_certificate (fun _ _ => none) (fun _ => none) (fun _ _ => false)
      (.obj [("cert_type", Json.str "backup"),
             ("metadata", Json.obj [("certificate_json_sha256", Json.str "")])])
      [120] none).hash_valid = none := by
  exact ⟨by decide, rfl⟩

/-- C2 witness: the amended round trip theorem applied to one concrete
backup certificate declaring the digest of the one byte body x in upper
case; the check compares case insensitively and reports true. -/
theorem c2_amended_hash_round_trip_witness :
    ([("cert_type", Json.str "backup"), ("metadata", Json.obj [("certificate_json_sha256",
        Json.str "2D711642B726B04401627CA9FBAC32F5C8530FB1903CC4DB02258717921A4881")])].lookup
          "cert_type" = some (Json.str "backup")) ∧
    (validate_certificate (fun _ _ => none) (fun _ => none) (fun _ _ => false)
      (.obj [("cert_type", Json.str "backup"), ("metadata", Json.obj [("certificate_json_sha256",
        Json.str "2D711642B726B04401627CA9FBAC32F5C8530FB1903CC4DB02258717921A4881")])])
      [120] none).hash_valid =
      some (asciiLower "2D711642B726B04401627CA9FBAC32F5C8530FB1903CC4DB02258717921A4881" ==
        asciiLower (compute_certificate_hash [120])) := by
  refine ⟨rfl, ?_⟩
  exact ((((c2_amended_hash_round_trip (fun _ _ => none) (fun _ => none) (fun _ _ => false)
      [("cert_type", Json.str "backup"), ("metadata", Json.obj [("certificate_json_sha256",
        Json.str "2D711642B726B04401627CA9FBAC32F5C8530FB1903CC4DB02258717921A4881")])]
      [("certificate_json_sha256",
        Json.str "2D711642B726B04401627CA9FBAC32F5C8530FB1903CC4DB02258717921A4881")]
      [120] none rfl).2 rfl).2
      "2D711642B726B04401627CA9FBAC32F5C8530FB1903CC4DB02258717921A4881" rfl).2
      (by decide)).1

/-- C4, amended: chain linkage for a wipe certificate.  With no linked
certificate supplied, chain_valid is null.  With a supplied nonempty
linked certificate object that passes the backup schema: if the wipe
certificate declares no linkage object, or the linkage object carries no
backup_cert_id member, chain_valid is null; if it declares a non-empty
backup_cert_id string and the linked certificate carries a cert_id
string, chain_valid is exactly their string equality, and on mismatch an
error containing the word mismatch is appended.  A declared but empty
backup_cert_id is skipped by the falsiness test of the source and also
yields null (the counterexample below), not the false verdict the
original claim demands. -/
theorem c4_chain_linkage
    (sc : SchemaId → Json → Option SchemaErr) (b64 : Json → Option (List Nat))
    (ed : List Nat → List Nat → Bool) (fs : List (String × Json)) (bytes : List Nat)
    (hw : fs.lookup "cert_type" = some (.str "wipe")) :
    (validate_certificate sc b64 ed (.obj fs) bytes none).chain_valid = none ∧
    (∀ ls : List (String × Json), pyTruthy (.obj ls) = true →
      sc .backup (.obj ls) = none →
      (fs.lookup "linkage" = none →
        (validate_certificate sc b64 ed (.obj fs) bytes (some (.obj ls))).chain_valid = none) ∧
      (∀ lk : List (String × Json), fs.lookup "linkage" = some (.obj lk) →
        (lk.lookup "backup_cert_id" = none →
          (validate_certificate sc b64 ed (.obj fs) bytes (some (.obj ls))).chain_valid =
            none) ∧
        (∀ b c, lk.lookup "backup_cert_id" = some (.str b) → b ≠ "" →
          ls.lookup "cert_id" = some (.str c) →
          (validate_certificate sc b64 ed (.obj fs) bytes (some (.obj ls))).chain_valid =
            some (b == c) ∧
          (b ≠ c →
            "Chain linkage validation failed: backup_cert_id mismatch" ∈
              (validate_certificate sc b64 ed (.obj fs) bytes (some (.obj ls))).errors)))) := by
  refine ⟨?_, ?_⟩
  · cases h4 : extract_cert_summary (.obj fs) <;>
      simp [validate_certificate, pyGetD, hw, hashStep, pyEq, pyTruthy, h4,
        bind, Except.bind, pure, Except.pure]
  · intro ls hls hsc
    simp only [pyTruthy, Bool.not_eq_true'] at hls
    refine ⟨?_, ?_⟩
    · intro hlk
      cases h4 : extract_cert_summary (.obj fs) <;>
        simp [validate_certificate, pyGetD, hw, hls, hsc, hlk, chainStep,
          validate_chain_linkage, hashStep, pyEq, pyTruthy, h4,
          bind, Except.bind, pure, Except.pure]
    · intro lk hlk
      refine ⟨?_, ?_⟩
      · intro hb
        cases h4 : extract_cert_summary (.obj fs) <;>
          simp [validate_certificate, pyGetD, hw, hls, hsc, hlk, hb, chainStep,
            validate_chain_linkage, hashStep, pyEq, pyTruthy, h4,
            bind, Except.bind, pure, Except.pure]
      · intro b c hb hbne hc
        by_cases hbc : b = c
        · subst hbc
          cases h4 : extract_cert_summary (.obj fs) <;>
            simp [validate_certificate, pyGetD, hw, hls, hsc, hlk, hb, hbne, hc,
              beq_iff_eq, chainStep, validate_chain_linkage, hashStep, pyEq, pyTruthy, h4,
              bind, Except.bind, pure, Except.pure]
        · cases h4 : extract_cert_summary (.obj fs) <;>
            simp [validate_certificate, pyGetD, hw, hls, hsc, hlk, hb, hbne, hc, hbc,
              beq_iff_eq, chainStep, validate_chain_linkage, hashStep, pyEq, pyTruthy, h4,
              bind, Except.bind, pure, Except.pure]

/-- C4, counterexample: a wipe certificate declaring the empty string as
backup_cert_id, with a supplied linked certificate whose cert_id is B1
and which passes the backup schema, is a declared-and-mismatched linkage
(the empty string equals no certificate identifier), yet the source
yields chain_valid null with no mismatch error because
`if not backup_cert_id:` treats the empty string like an absent field —
the original claim demands false plus a mismatch error here. -/
theorem c4_counterexample_empty_backup_cert_id_null :
    ("" : String) ≠ "B1" ∧
    (validate_certificate (fun _ _ => none) (fun _ => none) (fun _ _ => false)
      (.obj [("cert_type", Json.str "wipe"),
             ("linkage", Json.obj [("backup_cert_id", Json.str "")])])
      [120] (some (.obj [("cert_id", Json.str "B1")]))).chain_valid = none ∧
    "Chain linkage validation failed: backup_cert_id mismatch" ∉
      (validate_certificate (fun _ _ => none) (fun _ => none) (fun _ _ => false)
        (.obj [("cert_type", Json.str "wipe"),
               ("linkage", Json.obj [("backup_cert_id", Json.str "")])])
        [120] (some (.obj [("cert_id", Json.str "B1")]))).errors := by
  exact ⟨by decide, rfl, by decide⟩

/-- C4 witness: a wipe certificate declaring backup_cert_id B1 together
with a linked backup certificate whose own cert_id is B1 yields a true
chain verdict (the Boolean equality of the two identifier strings). -/
theorem c4_chain_linkage_witness :
    pyTruthy (Json.obj [("cert_id", Json.str "B1")]) = true ∧
    (validate_certificate (fun _ _ => none) (fun _ => none) (fun _ _ => false)
      (.obj [("cert_type", Json.str "wipe"),
             ("linkage", Json.obj [("backup_cert_id", Json.str "B1")])])
      [120] (some (.obj [("cert_id", Json.str "B1")]))).chain_valid = some ("B1" == "B1") :=
  ⟨rfl,
    (((((c4_chain_linkage (fun _ _ => none) (fun _ => none) (fun _ _ => false)
        [("cert_type", Json.str "wipe"),
         ("linkage", Json.obj [("backup_cert_id", Json.str "B1")])]
        [120] rfl).2 [("cert_id", Json.str "B1")] rfl rfl).2)
      [("backup_cert_id", Json.str "B1")] rfl).2 "B1" "B1" rfl (by decide) rfl).1⟩

/-- C5, amended: for a wipe certificate verified with a supplied nonempty
linked certificate object, the linked digest (SHA-256 of the compactly
re-serialized linked certificate) is recorded exactly when the linked
certificate passes the backup schema, and then regardless of the
reference-equality outcome; when the linked certificate fails the backup
schema, the exception is caught before the digest line runs, so
computed.linked_backup_sha256 stays null while chain_valid becomes false
with the distinct linked-schema error. -/
theorem c5_amended_linked_digest
    (sc : SchemaId → Json → Option SchemaErr) (b64 : Json → Option (List Nat))
    (ed : List Nat → List Nat → Bool) (fs ls : List (String × Json)) (bytes : List Nat)
    (hw : fs.lookup "cert_type" = some (.str "wipe"))
    (hls : pyTruthy (.obj ls) = true) :
    (sc .backup (.obj ls) = none →
      (validate_certificate sc b64 ed (.obj fs) bytes
        (some (.obj ls))).computed_linked_backup_sha256 =
        some (compute_certificate_hash (utf8Bytes (jsonDumpsVal true (.obj ls))))) ∧
    (∀ e, sc .backup (.obj ls) = some e →
      (validate_certificate sc b64 ed (.obj fs) bytes
        (some (.obj ls))).computed_linked_backup_sha256 = none ∧
      (validate_certificate sc b64 ed (.obj fs) bytes (some (.obj ls))).chain_valid =
        some false ∧
      ("Linked backup certificate schema error: " ++ e.message) ∈
        (validate_certificate sc b64 ed (.obj fs) bytes (some (.obj ls))).errors) := by
  simp only [pyTruthy, Bool.not_eq_true'] at hls
  constructor
  · intro hsc
    cases hcl : validate_chain_linkage (.obj fs) (some (.obj ls)) <;>
      cases h4 : extract_cert_summary (.obj fs) <;>
        simp [validate_certificate, pyGetD, hw, hls, hsc, hcl, chainStep, hashStep,
          pyEq, pyTruthy, h4, bind, Except.bind, pure, Except.pure]
  · intro e hsc
    cases h4 : extract_cert_summary (.obj fs) <;>
      simp [validate_certificate, pyGetD, hw, hls, hsc, chainStep, hashStep,
        pyEq, pyTruthy, h4, bind, Except.bind, pure, Except.pure]

/-- C5, counterexample: when the linked certificate fails the backup
schema (modelled by a validator that reports one violation for every
document), the linked digest is not recorded: computed stays null while
chain_valid is false with the distinct linked-schema error, contradicting
the claim that the digest is set regardless of the linkage outcome. -/
theorem c5_counterexample_no_digest_on_linked_schema_failure :
    (validate_certificate (fun _ _ => some ⟨"bad", []⟩) (fun _ => none) (fun _ _ => false)
      (.obj [("cert_type", Json.str "wipe"),
             ("linkage", Json.obj [("backup_cert_id", Json.str "B1")])])
      [120] (some (.obj [("cert_id", Json.str "B2")]))).computed_linked_backup_sha256 =
      none ∧
    (validate_certificate (fun _ _ => some ⟨"bad", []⟩) (fun _ => none) (fun _ _ => false)
      (.obj [("cert_type", Json.str "wipe"),
             ("linkage", Json.obj [("backup_cert_id", Json.str "B1")])])
      [120] (some (.obj [("cert_id", Json.str "B2")]))).chain_valid = some false ∧
    "Linked backup certificate schema error: bad" ∈
      (validate_certificate (fun _ _ => some ⟨"bad", []⟩) (fun _ => none) (fun _ _ => false)
        (.obj [("cert_type", Json.str "wipe"),
               ("linkage", Json.obj [("backup_cert_id", Json.str "B1")])])
        [120] (some (.obj [("cert_id", Json.str "B2")]))).errors := by
  exact ⟨rfl, rfl, by decide⟩

/-- C5 witness: with a validator that accepts the linked certificate, the
linked digest is recorded even though the identifiers mismatch. -/
theorem c5_amended_linked_digest_witness :
    ([("cert_type", Json.str "wipe"),
      ("linkage", Json.obj [("backup_cert_id", Json.str "B1")])].lookup "cert_type" =
        some (Json.str "wipe")) ∧
    (validate_certificate (fun _ _ => none) (fun _ => none) (fun _ _ => false)
      (.obj [("cert_type", Json.str "wipe"),
             ("linkage", Json.obj [("backup_cert_id", Json.str "B1")])])
      [120] (some (.obj [("cert_id", Json.str "B2")]))).computed_linked_backup_sha256 =
      some (compute_certificate_hash
        (utf8Bytes (jsonDumpsVal true (.obj [("cert_id", Json.str "B2")])))) :=
  ⟨rfl,
    (c5_amended_linked_digest (fun _ _ => none) (fun _ => none) (fun _ _ => false)
      [("cert_type", Json.str "wipe"),
       ("linkage", Json.obj [("backup_cert_id", Json.str "B1")])]
      [("cert_id", Json.str "B2")] [120] rfl rfl).1 rfl⟩

/-- C6, counterexample: the syntactically valid JSON body 5 (a top level
number) does not produce a VerificationResult: request_data.copy() raises
AttributeError, which the handler catch-all converts into a 500 internal
server error, for any collaborators. -/
theorem c6_counterexample_number_body_is_500 :
    verify_certificate (fun _ _ => none) (fun _ => none) (fun _ _ => false)
      (.num 5) [53] =
      Except.error (500,
        "Internal server error: \x27int\x27 object has no attribute \x27copy\x27") := rfl

/-- C6, amended: for a nonempty body parsing to any JSON value, the
handler returns a VerificationResult exactly when the value is an object,
or an array that does not contain the string linked_backup_cert as an
element (dict and list are the only parsed values with a copy attribute,
and list.pop raises on a string index); every other syntactically valid
body is rejected with a 500 response, never a 400. -/
theorem c6_amended_transport_totality
    (sc : SchemaId → Json → Option SchemaErr) (b64 : Json → Option (List Nat))
    (ed : List Nat → List Nat → Bool) (request_data : Json) (body : List Nat)
    (hbody : body ≠ []) :
    ((∃ r, verify_certificate sc b64 ed request_data body = Except.ok r) ↔
      (∃ fs, request_data = .obj fs) ∨
      (∃ xs, request_data = .arr xs ∧
        pyContains "linked_backup_cert" (.arr xs) = false)) ∧
    (∀ code detail,
      verify_certificate sc b64 ed request_data body = Except.error (code, detail) →
      code = 500) := by
  have hb : body.isEmpty = false := by
    cases body with
    | nil => exact absurd rfl hbody
    | cons a l => rfl
  cases request_data with
  | obj fs =>
      by_cases hc : pyContains "linked_backup_cert" (.obj fs) = true <;>
        simp [verify_certificate, pyCopy, pyPop, hb, hc]
  | arr xs =>
      by_cases hc : pyContains "linked_backup_cert" (.arr xs) = true <;>
        simp [verify_certificate, pyCopy, pyPop, hb, hc]
  | null => simp [verify_certificate, pyCopy, hb]
  | bool b => simp [verify_certificate, pyCopy, hb]
  | num n => simp [verify_certificate, pyCopy, hb]
  | nan => simp [verify_certificate, pyCopy, hb]
  | str s => simp [verify_certificate, pyCopy, hb]

/-- C6 witness: the empty object body (bytes of two braces) is accepted
and produces a VerificationResult. -/
theorem c6_amended_transport_totality_witness :
    ([123, 125] : List Nat) ≠ [] ∧
    ∃ r, verify_certificate (fun _ _ => none) (fun _ => none) (fun _ _ => false)
      (.obj []) [123, 125] = Except.ok r :=
  ⟨by decide,
    (c6_amended_transport_totality (fun _ _ => none) (fun _ => none) (fun _ _ => false)
      (.obj []) [123, 125] (by decide)).1.mpr (Or.inl ⟨[], rfl⟩)⟩

/-! ## Error text disjointness toolbox: every check block writes messages
with its own fixed prefix, so membership of one block's message in the
aggregate list is insensitive to the other blocks. -/

/-- The character data of an appended string. -/
lemma string_data_append (a b : String) : (a ++ b).data = a.data ++ b.data := rfl

/-- Appending the empty string changes nothing. -/
lemma string_append_empty (p : String) : p ++ "" = p := by
  cases p with
  | mk d => show String.mk (d ++ []) = String.mk d; rw [List.append_nil]

/-- Two strings that disagree at a position inside both stay different
under arbitrary appended tails. -/
lemma append_ne_of_diff_at {p q : String} (i : Nat)
    (hp : i < p.data.length) (hq : i < q.data.length)
    (hne : p.data.getD i ' ' ≠ q.data.getD i ' ') :
    ∀ x y : String, p ++ x ≠ q ++ y := by
  intro x y h
  apply hne
  have hd : p.data ++ x.data = q.data ++ y.data := by
    have h2 := congrArg String.data h
    simpa [string_data_append] using h2
  have h1 : (p.data ++ x.data).getD i ' ' = p.data.getD i ' ' :=
    List.getD_append _ _ _ _ hp
  have h2 : (q.data ++ y.data).getD i ' ' = q.data.getD i ' ' :=
    List.getD_append _ _ _ _ hq
  rw [← h1, hd, h2]

/-- One-sided version: a plain string against a prefixed family. -/
lemma ne_append_of_diff_at {p q : String} (i : Nat)
    (hp : i < p.data.length) (hq : i < q.data.length)
    (hne : p.data.getD i ' ' ≠ q.data.getD i ' ') (y : String) : p ≠ q ++ y := by
  intro h
  exact append_ne_of_diff_at i hp hq hne "" y (by rw [string_append_empty]; exact h)

/-- Entries that the schema block can write. -/
lemma schemaStep_shape (c : Option SchemaErr) :
    ∀ x ∈ (schemaStep c).2,
      (∃ m, x = "Schema validation error: " ++ m) ∨ ∃ m, x = "At path: " ++ m := by
  intro x hx
  cases c with
  | none => simp [schemaStep] at hx
  | some e =>
      by_cases hp : e.path.isEmpty
      · simp [schemaStep, hp] at hx
        exact Or.inl ⟨e.message, hx⟩
      · simp [schemaStep, hp] at hx
        rcases hx with h | h
        · exact Or.inl ⟨e.message, h⟩
        · exact Or.inr ⟨joinArrow e.path, h⟩

/-- Entries that the hash block can write (only mismatch reports). -/
lemma hashStep_shape (cert : Json) (ch : String) (res : Option Bool × List String)
    (hres : hashStep cert ch = Except.ok res) :
    ∀ x ∈ res.2, ∃ m, x = "Certificate hash mismatch: expected " ++ m := by
  intro x hx
  unfold hashStep at hres
  cases cert <;> simp only [pyGetD, bind, Except.bind, pure, Except.pure] at hres
  case obj fs =>
    split at hres
    next e he => exact absurd hres (by simp)
    next v hv =>
      cases hmd : (List.lookup "metadata" fs).getD (Json.obj []) with
      | null => rw [hmd] at hv; exact absurd hv (by simp)
      | bool b => rw [hmd] at hv; exact absurd hv (by simp)
      | num n => rw [hmd] at hv; exact absurd hv (by simp)
      | nan => rw [hmd] at hv; exact absurd hv (by simp)
      | str s => rw [hmd] at hv; exact absurd hv (by simp)
      | arr xs => rw [hmd] at hv; exact absurd hv (by simp)
      | obj ms =>
        rw [hmd] at hv
        simp only [Except.ok.injEq] at hv
        subst hv
        cases hexp : (List.lookup "certificate_json_sha256" ms).getD Json.null with
        | str s =>
            rw [hexp] at hres
            by_cases hs : s = ""
            · subst hs
              simp only [pyTruthy, bne_self_eq_false, Bool.not_false, if_pos] at hres
              cases hres
              simp at hx
            · have ht : pyTruthy (Json.str s) = true := by simp [pyTruthy, hs]
              rw [ht] at hres
              simp only [Bool.not_true, Bool.false_eq_true, if_false] at hres
              by_cases hcmp : asciiLower s == asciiLower ch
              · rw [if_pos hcmp] at hres
                cases hres
                simp at hx
              · rw [if_neg hcmp] at hres
                cases hres
                simp at hx
                exact ⟨s ++ ", got " ++ ch, by
                  rw [hx, ← String.append_assoc, ← String.append_assoc]⟩
        | null =>
            rw [hexp] at hres
            simp only [pyTruthy, Bool.not_false, if_pos] at hres
            cases hres
            simp at hx
        | bool b =>
            rw [hexp] at hres
            cases b
            · simp only [pyTruthy, Bool.not_false, if_pos] at hres
              cases hres
              simp at hx
            · simp only [pyTruthy, Bool.not_true, Bool.false_eq_true, if_false] at hres
              exact absurd hres (by simp)
        | num n =>
            rw [hexp] at hres
            by_cases hn : (n != 0) = true
            · rw [show pyTruthy (Json.num n) = true from hn] at hres
              simp only [Bool.not_true, Bool.false_eq_true, if_false] at hres
              exact absurd hres (by simp)
            · rw [show pyTruthy (Json.num n) = false from by
                simp only [pyTruthy]; simpa using hn] at hres
              simp only [Bool.not_false, if_pos] at hres
              cases hres
              simp at hx
        | nan =>
            rw [hexp] at hres
            simp only [pyTruthy, Bool.not_true, Bool.false_eq_true, if_false] at hres
            exact absurd hres (by simp)
        | arr xs =>
            rw [hexp] at hres
            by_cases hn : xs.isEmpty
            · rw [show pyTruthy (Json.arr xs) = false from by simp [pyTruthy, hn]] at hres
              simp only [Bool.not_false, if_pos] at hres
              cases hres
              simp at hx
            · rw [show pyTruthy (Json.arr xs) = true from by simp [pyTruthy, hn]] at hres
              simp only [Bool.not_true, Bool.false_eq_true, if_false] at hres
              exact absurd hres (by simp)
        | obj gs =>
            rw [hexp] at hres
            by_cases hn : gs.isEmpty
            · rw [show pyTruthy (Json.obj gs) = false from by simp [pyTruthy, hn]] at hres
              simp only [Bool.not_false, if_pos] at hres
              cases hres
              simp at hx
            · rw [show pyTruthy (Json.obj gs) = true from by simp [pyTruthy, hn]] at hres
              simp only [Bool.not_true, Bool.false_eq_true, if_false] at hres
              exact absurd hres (by simp)
  all_goals exact absurd hres (by simp)

/-- Entries that the chain block can write. -/
lemma chainStep_shape (sc : SchemaId → Json → Option SchemaErr) (cert linked : Json) :
    ∀ x ∈ (chainStep sc cert linked).2.2,
      (∃ m, x = "Linked backup certificate schema error: " ++ m) ∨
      x = "Chain linkage validation failed: backup_cert_id mismatch" ∨
      ∃ m, x = "Chain validation error: " ++ m := by
  intro x hx
  unfold chainStep at hx
  cases hsc : sc .backup linked with
  | some e =>
      rw [hsc] at hx
      simp at hx
      exact Or.inl ⟨e.message, hx⟩
  | none =>
      rw [hsc] at hx
      cases hcl : validate_chain_linkage cert (some linked) with
      | ok cv =>
          rw [hcl] at hx
          by_cases hc : cv = some false
          · simp [hc] at hx
            exact Or.inr (Or.inl hx)
          · simp [hc] at hx
      | error m =>
          rw [hcl] at hx
          simp at hx
          exact Or.inr (Or.inr ⟨m, hx⟩)

/-- The fixed signature advisory line never appears among schema block
entries (their prefixes differ in the first character). -/
lemma sig_line_not_schema (c : Option SchemaErr) :
    "Invalid Ed25519 signature" ∉ (schemaStep c).2 := by
  intro hm
  rcases schemaStep_shape c _ hm with ⟨m, h⟩ | ⟨m, h⟩
  · exact ne_append_of_diff_at 0 (by decide) (by decide) (by decide) m h
  · exact ne_append_of_diff_at 0 (by decide) (by decide) (by decide) m h

/-- The fixed signature advisory line never appears among chain block
entries. -/
lemma sig_line_not_chain (sc : SchemaId → Json → Option SchemaErr) (cert linked : Json) :
    "Invalid Ed25519 signature" ∉ (chainStep sc cert linked).2.2 := by
  intro hm
  rcases chainStep_shape sc cert linked _ hm with ⟨m, h⟩ | h | ⟨m, h⟩
  · exact ne_append_of_diff_at 0 (by decide) (by decide) (by decide) m h
  · exact absurd h (by decide)
  · exact ne_append_of_diff_at 0 (by decide) (by decide) (by decide) m h

/-- Hash mismatch lines never appear among schema block entries. -/
lemma hash_line_not_schema (c : Option SchemaErr) (m : String) :
    ("Certificate hash mismatch: expected " ++ m) ∉ (schemaStep c).2 := by
  intro hm
  rcases schemaStep_shape c _ hm with ⟨m2, h⟩ | ⟨m2, h⟩
  · exact append_ne_of_diff_at 0 (by decide) (by decide) (by decide) m m2 h
  · exact append_ne_of_diff_at 0 (by decide) (by decide) (by decide) m m2 h

/-- Hash mismatch lines never appear among chain block entries. -/
lemma hash_line_not_chain (sc : SchemaId → Json → Option SchemaErr) (cert linked : Json)
    (m : String) :
    ("Certificate hash mismatch: expected " ++ m) ∉ (chainStep sc cert linked).2.2 := by
  intro hm
  rcases chainStep_shape sc cert linked _ hm with ⟨m2, h⟩ | h | ⟨m2, h⟩
  · exact append_ne_of_diff_at 0 (by decide) (by decide) (by decide) m m2 h
  · exact ne_append_of_diff_at 1 (by decide) (by decide) (by decide) m h.symm
  · exact append_ne_of_diff_at 1 (by decide) (by decide) (by decide) m m2 h

/-- C7: for a certificate with a recognized cert_type, the signature and
hash verdicts, the signature advisory line, and the family of hash
mismatch lines in the aggregate errors are all invariant under replacing
the schema validator — a schema failure (of the certificate or of the
linked certificate) can neither change nor suppress them, so those checks
run to completion independently. -/
theorem c7_checks_independent
    (sc sc' : SchemaId → Json → Option SchemaErr) (b64 : Json → Option (List Nat))
    (ed : List Nat → List Nat → Bool) (fs : List (String × Json)) (bytes : List Nat)
    (linked : Option Json)
    (hrec : fs.lookup "cert_type" = some (.str "backup") ∨
            fs.lookup "cert_type" = some (.str "wipe")) :
    (validate_certificate sc b64 ed (.obj fs) bytes linked).signature_valid =
      (validate_certificate sc' b64 ed (.obj fs) bytes linked).signature_valid ∧
    (validate_certificate sc b64 ed (.obj fs) bytes linked).hash_valid =
      (validate_certificate sc' b64 ed (.obj fs) bytes linked).hash_valid ∧
    ("Invalid Ed25519 signature" ∈
        (validate_certificate sc b64 ed (.obj fs) bytes linked).errors ↔
      "Invalid Ed25519 signature" ∈
        (validate_certificate sc' b64 ed (.obj fs) bytes linked).errors) ∧
    (∀ m, ("Certificate hash mismatch: expected " ++ m) ∈
        (validate_certificate sc b64 ed (.obj fs) bytes linked).errors ↔
      ("Certificate hash mismatch: expected " ++ m) ∈
        (validate_certificate sc' b64 ed (.obj fs) bytes linked).errors) := by
  rcases hrec with hb | hw
  · cases hhs : hashStep (.obj fs) (compute_certificate_hash bytes) with
    | error m0 =>
        refine ⟨?_, ?_, ?_, ?_⟩ <;>
          simp [validate_certificate, pyGetD, hb, pyEq, pyTruthy, hhs,
            List.mem_append, sig_line_not_schema, hash_line_not_schema]
    | ok p =>
        cases h4 : extract_cert_summary (.obj fs) <;> cases linked <;>
          refine ⟨?_, ?_, ?_, ?_⟩ <;>
            simp [validate_certificate, pyGetD, hb, pyEq, pyTruthy, hhs, h4,
              List.mem_append, sig_line_not_schema, hash_line_not_schema]
  · cases h4 : extract_cert_summary (.obj fs) <;> cases linked with
    | none =>
        refine ⟨?_, ?_, ?_, ?_⟩ <;>
          simp [validate_certificate, pyGetD, hw, pyEq, pyTruthy, h4,
            List.mem_append, sig_line_not_schema, hash_line_not_schema]
    | some l =>
        by_cases hl : pyTruthy l = true
        all_goals simp only [pyTruthy] at hl
        all_goals refine ⟨?_, ?_, ?_, ?_⟩ <;>
          simp [validate_certificate, pyGetD, hw, pyEq, pyTruthy, h4, hl,
            List.mem_append, sig_line_not_schema, hash_line_not_schema,
            sig_line_not_chain, hash_line_not_chain]

/-- C7 witness: on a concrete backup certificate the signature verdict is
the same under an accepting and a rejecting schema validator. -/
theorem c7_checks_independent_witness :
    ([("cert_type", Json.str "backup")].lookup "cert_type" = some (Json.str "backup") ∨
      [("cert_type", Json.str "backup")].lookup "cert_type" = some (Json.str "wipe")) ∧
    (validate_certificate (fun _ _ => none) (fun _ => none) (fun _ _ => false)
        (.obj [("cert_type", Json.str "backup")]) [120] none).signature_valid =
      (validate_certificate (fun _ _ => some ⟨"bad", []⟩) (fun _ => none) (fun _ _ => false)
        (.obj [("cert_type", Json.str "backup")]) [120] none).signature_valid :=
  ⟨Or.inl rfl,
    (c7_checks_independent (fun _ _ => none) (fun _ _ => some ⟨"bad", []⟩)
      (fun _ => none) (fun _ _ => false) [("cert_type", Json.str "backup")] [120] none
      (Or.inl rfl)).1⟩

/-- A string is signature related when it is the fixed advisory line or
carries the signature-exception prefix of validate_certificate. -/
def sigRelated (x : String) : Prop :=
  x = "Invalid Ed25519 signature" ∨ ∃ m, x = "Signature verification error: " ++ m

/-- Schema block entries are never signature related. -/
lemma schema_not_sigRelated (c : Option SchemaErr) :
    ∀ x ∈ (schemaStep c).2, ¬ sigRelated x := by
  intro x hx hr
  rcases schemaStep_shape c x hx with ⟨m, h⟩ | ⟨m, h⟩ <;> subst h <;>
    rcases hr with h2 | ⟨m2, h2⟩
  · exact ne_append_of_diff_at 0 (by decide) (by decide) (by decide) m h2.symm
  · exact append_ne_of_diff_at 1 (by decide) (by decide) (by decide) m m2 h2
  · exact ne_append_of_diff_at 0 (by decide) (by decide) (by decide) m h2.symm
  · exact append_ne_of_diff_at 0 (by decide) (by decide) (by decide) m m2 h2

/-- Hash block entries are never signature related. -/
lemma hash_not_sigRelated (cert : Json) (ch : String) (res : Option Bool × List String)
    (hres : hashStep cert ch = Except.ok res) :
    ∀ x ∈ res.2, ¬ sigRelated x := by
  intro x hx hr
  rcases hashStep_shape cert ch res hres x hx with ⟨m, h⟩
  subst h
  rcases hr with h2 | ⟨m2, h2⟩
  · exact ne_append_of_diff_at 0 (by decide) (by decide) (by decide) m h2.symm
  · exact append_ne_of_diff_at 0 (by decide) (by decide) (by decide) m m2 h2

/-- Chain block entries are never signature related. -/
lemma chain_not_sigRelated (sc : SchemaId → Json → Option SchemaErr) (cert linked : Json) :
    ∀ x ∈ (chainStep sc cert linked).2.2, ¬ sigRelated x := by
  intro x hx hr
  rcases chainStep_shape sc cert linked x hx with ⟨m, h⟩ | h | ⟨m, h⟩ <;> subst h <;>
    rcases hr with h2 | ⟨m2, h2⟩
  · exact ne_append_of_diff_at 0 (by decide) (by decide) (by decide) m h2.symm
  · exact append_ne_of_diff_at 0 (by decide) (by decide) (by decide) m m2 h2
  · exact absurd h2 (by decide)
  · exact ne_append_of_diff_at 0 (by decide) (by decide) (by decide) m2 h2
  · exact ne_append_of_diff_at 0 (by decide) (by decide) (by decide) m h2.symm
  · exact append_ne_of_diff_at 0 (by decide) (by decide) (by decide) m m2 h2

/-- The catch-all line is never signature related. -/
lemma unexpected_not_sigRelated (m : String) :
    ¬ sigRelated ("Unexpected error during validation: " ++ m) := by
  intro hr
  rcases hr with h2 | ⟨m2, h2⟩
  · exact ne_append_of_diff_at 0 (by decide) (by decide) (by decide) m h2.symm
  · exact append_ne_of_diff_at 0 (by decide) (by decide) (by decide) m m2 h2

/-- The missing-discriminator line is never signature related. -/
lemma missing_not_sigRelated : ¬ sigRelated "Missing \x27cert_type\x27 field" := by
  intro hr
  rcases hr with h2 | ⟨m2, h2⟩
  · exact absurd h2 (by decide)
  · exact ne_append_of_diff_at 0 (by decide) (by decide) (by decide) m2 h2

/-- The unknown-type line is never signature related. -/
lemma unknown_not_sigRelated (m : String) :
    ¬ sigRelated ("Unknown certificate type: " ++ m) := by
  intro hr
  rcases hr with h2 | ⟨m2, h2⟩
  · exact ne_append_of_diff_at 0 (by decide) (by decide) (by decide) m h2.symm
  · exact append_ne_of_diff_at 0 (by decide) (by decide) (by decide) m m2 h2

/-- Python equality against a string literal pins the value to that
string. -/
lemma pyEq_str_right {v : Json} {t : String} (h : pyEq v (.str t) = true) : v = .str t := by
  cases v <;> simp [pyEq] at h
  rw [h]

/-- C10: a signature member that is present but falsy (empty object,
false, 0, empty string or null) is treated like an absent signature:
verify_ed25519_signature returns none (unsigned), the aggregate
signature_valid is null, and no signature related error line (neither the
advisory line nor the exception prefix) appears in the aggregate errors,
whatever the other checks do. -/
theorem c10_falsy_signature_is_unsigned
    (sc : SchemaId → Json → Option SchemaErr) (b64 : Json → Option (List Nat))
    (ed : List Nat → List Nat → Bool) (fs : List (String × Json)) (bytes : List Nat)
    (linked : Option Json) (s : Json)
    (hs : fs.lookup "signature" = some s) (hfalsy : pyTruthy s = false) :
    verify_ed25519_signature b64 ed (.obj fs) = .ok none ∧
    (validate_certificate sc b64 ed (.obj fs) bytes linked).signature_valid = none ∧
    ∀ x ∈ (validate_certificate sc b64 ed (.obj fs) bytes linked).errors, ¬ sigRelated x := by
  have hsig : verify_ed25519_signature b64 ed (.obj fs) = .ok none := by
    simp [verify_ed25519_signature, pyGetD, hs, hfalsy, bind, Except.bind, pure, Except.pure]
  have hstep : signatureStep b64 ed (.obj fs) = (none, []) := by
    simp [signatureStep, hsig]
  have main : (validate_certificate sc b64 ed (.obj fs) bytes linked).signature_valid = none ∧
      ∀ x ∈ (validate_certificate sc b64 ed (.obj fs) bytes linked).errors, ¬ sigRelated x := by
    by_cases ht : pyTruthy ((fs.lookup "cert_type").getD .null) = true
    · by_cases hbk : pyEq ((fs.lookup "cert_type").getD .null) (.str "backup") = true
      · have hct := pyEq_str_right hbk
        cases hhs : hashStep (.obj fs) (compute_certificate_hash bytes) with
        | error m0 =>
            constructor
            · simp [validate_certificate, pyGetD, hct, pyEq, pyTruthy, hstep, hhs]
            · intro x hx
              simp [validate_certificate, pyGetD, hct, pyEq, pyTruthy, hstep, hhs,
                List.mem_append] at hx
              rcases hx with h | h
              · exact schema_not_sigRelated _ x h
              · subst h; exact unexpected_not_sigRelated m0
        | ok p =>
            cases h4 : extract_cert_summary (.obj fs) with
            | error m4 =>
                constructor
                · cases linked <;>
                    simp [validate_certificate, pyGetD, hct, pyEq, pyTruthy, hstep, hhs, h4]
                · intro x hx
                  cases linked <;>
                    simp [validate_certificate, pyGetD, hct, pyEq, pyTruthy, hstep, hhs, h4,
                      List.mem_append] at hx <;>
                    rcases hx with h | h | h
                  · exact schema_not_sigRelated _ x h
                  · exact hash_not_sigRelated _ _ _ hhs x h
                  · subst h; exact unexpected_not_sigRelated m4
                  · exact schema_not_sigRelated _ x h
                  · exact hash_not_sigRelated _ _ _ hhs x h
                  · subst h; exact unexpected_not_sigRelated m4
            | ok summ =>
                constructor
                · cases linked <;>
                    simp [validate_certificate, pyGetD, hct, pyEq, pyTruthy, hstep, hhs, h4]
                · intro x hx
                  cases linked <;>
                    simp [validate_certificate, pyGetD, hct, pyEq, pyTruthy, hstep, hhs, h4,
                      List.mem_append] at hx <;>
                    rcases hx with h | h
                  · exact schema_not_sigRelated _ x h
                  · exact hash_not_sigRelated _ _ _ hhs x h
                  · exact schema_not_sigRelated _ x h
                  · exact hash_not_sigRelated _ _ _ hhs x h
      · by_cases hwp : pyEq ((fs.lookup "cert_type").getD .null) (.str "wipe") = true
        · have hct := pyEq_str_right hwp
          cases h4 : extract_cert_summary (.obj fs) with
          | error m4 =>
              constructor
              · cases linked with
                | none =>
                    simp [validate_certificate, pyGetD, hct, pyEq, pyTruthy, hstep, h4]
                | some l =>
                    by_cases hl : pyTruthy l = true
                    all_goals simp only [pyTruthy] at hl
                    all_goals
                      simp [validate_certificate, pyGetD, hct, pyEq, pyTruthy, hstep, h4, hl]
              · intro x hx
                cases linked with
                | none =>
                    simp [validate_certificate, pyGetD, hct, pyEq, pyTruthy, hstep, h4,
                      List.mem_append] at hx
                    rcases hx with h | h
                    · exact schema_not_sigRelated _ x h
                    · subst h; exact unexpected_not_sigRelated m4
                | some l =>
                    by_cases hl : pyTruthy l = true
                    all_goals simp only [pyTruthy] at hl
                    all_goals
                      simp [validate_certificate, pyGetD, hct, pyEq, pyTruthy, hstep, h4, hl,
                        List.mem_append] at hx
                    · rcases hx with h | h | h
                      · exact schema_not_sigRelated _ x h
                      · exact chain_not_sigRelated _ _ _ x h
                      · subst h; exact unexpected_not_sigRelated m4
                    · rcases hx with h | h
                      · exact schema_not_sigRelated _ x h
                      · subst h; exact unexpected_not_sigRelated m4
          | ok summ =>
              constructor
              · cases linked with
                | none =>
                    simp [validate_certificate, pyGetD, hct, pyEq, pyTruthy, hstep, h4]
                | some l =>
                    by_cases hl : pyTruthy l = true
                    all_goals simp only [pyTruthy] at hl
                    all_goals
                      simp [validate_certificate, pyGetD, hct, pyEq, pyTruthy, hstep, h4, hl]
              · intro x hx
                cases linked with
                | none =>
                    simp [validate_certificate, pyGetD, hct, pyEq, pyTruthy, hstep, h4,
                      List.mem_append] at hx
                    exact schema_not_sigRelated _ x hx
                | some l =>
                    by_cases hl : pyTruthy l = true
                    all_goals simp only [pyTruthy] at hl
                    all_goals
                      simp [validate_certificate, pyGetD, hct, pyEq, pyTruthy, hstep, h4, hl,
                        List.mem_append] at hx
                    · rcases hx with h | h
                      · exact schema_not_sigRelated _ x h
                      · exact chain_not_sigRelated _ _ _ x h
                    · exact schema_not_sigRelated _ x hx
        · constructor
          · simp [validate_certificate, pyGetD, ht, hbk, hwp]
          · intro x hx
            simp [validate_certificate, pyGetD, ht, hbk, hwp] at hx
            subst hx
            exact unknown_not_sigRelated _
    · constructor
      · simp [validate_certificate, pyGetD, ht]
      · intro x hx
        simp [validate_certificate, pyGetD, ht] at hx
        subst hx
        exact missing_not_sigRelated
  exact ⟨hsig, main.1, main.2⟩

/-- C10 witness: a backup certificate whose signature member is the empty
object is treated as unsigned: the verifier returns none and the
aggregate signature_valid is null. -/
theorem c10_falsy_signature_is_unsigned_witness :
    ([("cert_type", Json.str "backup"), ("signature", Json.obj [])].lookup "signature" =
      some (Json.obj [])) ∧ pyTruthy (Json.obj []) = false ∧
    verify_ed25519_signature (fun _ => none) (fun _ _ => false)
      (.obj [("cert_type", Json.str "backup"), ("signature", Json.obj [])]) = .ok none ∧
    (validate_certificate (fun _ _ => none) (fun _ => none) (fun _ _ => false)
      (.obj [("cert_type", Json.str "backup"), ("signature", Json.obj [])])
      [120] none).signature_valid = none :=
  ⟨rfl, rfl,
    (c10_falsy_signature_is_unsigned (fun _ _ => none) (fun _ => none) (fun _ _ => false)
      [("cert_type", Json.str "backup"), ("signature", Json.obj [])] [120] none
      (Json.obj []) rfl rfl).1,
    (c10_falsy_signature_is_unsigned (fun _ _ => none) (fun _ => none) (fun _ _ => false)
      [("cert_type", Json.str "backup"), ("signature", Json.obj [])] [120] none
      (Json.obj []) rfl rfl).2.1⟩

/-! ## Order facts about the canonical key comparison, leading to the
order insensitivity of the canonicalizer (claim C1). -/

/-- The key comparison is total. -/
lemma charListLe_total : ∀ a b : List Char, charListLe a b = true ∨ charListLe b a = true
  | [], _ => Or.inl rfl
  | _ :: _, [] => Or.inr rfl
  | a :: as, b :: bs => by
      by_cases h1 : a.toNat < b.toNat
      · exact Or.inl (by simp [charListLe, h1])
      · by_cases h2 : b.toNat < a.toNat
        · exact Or.inr (by simp [charListLe, h2])
        · rcases charListLe_total as bs with h | h
          · exact Or.inl (by simp [charListLe, h1, h2, h])
          · exact Or.inr (by simp [charListLe, h1, h2, h])

/-- The key comparison is transitive. -/
lemma charListLe_trans : ∀ a b c : List Char,
    charListLe a b = true → charListLe b c = true → charListLe a c = true
  | [], _, _, _, _ => rfl
  | _ :: _, [], _, h1, _ => nomatch h1
  | _ :: _, _ :: _, [], _, h2 => nomatch h2
  | a :: as, b :: bs, c :: cs, h1, h2 => by
      simp only [charListLe] at h1 h2 ⊢
      split at h1
      · rename_i hab
        split at h2
        · rename_i hbc
          rw [if_pos (by omega)]
        · split at h2
          · exact absurd h2 (by simp)
          · rename_i hbc hcb
            rw [if_pos (by omega)]
      · split at h1
        · exact absurd h1 (by simp)
        · rename_i hab hba
          split at h2
          · rename_i hbc
            rw [if_pos (by omega)]
          · split at h2
            · exact absurd h2 (by simp)
            · rename_i hbc hcb
              rw [if_neg (by omega), if_neg (by omega)]
              exact charListLe_trans as bs cs h1 h2

/-- The key comparison is antisymmetric. -/
lemma charListLe_antisymm : ∀ a b : List Char,
    charListLe a b = true → charListLe b a = true → a = b
  | [], [], _, _ => rfl
  | [], _ :: _, _, h2 => nomatch h2
  | _ :: _, [], h1, _ => nomatch h1
  | a :: as, b :: bs, h1, h2 => by
      simp only [charListLe] at h1 h2
      split at h1
      · rename_i hab
        rw [if_neg (by omega), if_pos (by omega)] at h2
        exact absurd h2 (by simp)
      · split at h1
        · exact absurd h1 (by simp)
        · rename_i hab hba
          have hch : a = b := Char.ext (UInt32.ext (by
            have : a.toNat = b.toNat := by omega
            exact_mod_cast this))
          rw [if_neg (by omega), if_neg (by omega)] at h2
          rw [hch, charListLe_antisymm as bs h1 h2]

instance : IsTotal (String × Json) fieldLe :=
  ⟨fun p q => charListLe_total p.1.data q.1.data⟩

instance : IsTrans (String × Json) fieldLe :=
  ⟨fun _ _ _ h1 h2 => charListLe_trans _ _ _ h1 h2⟩

/-- Mutually comparable members carry the same key. -/
lemma key_eq_of_fieldLe_both {p q : String × Json} (h1 : fieldLe p q) (h2 : fieldLe q p) :
    p.1 = q.1 :=
  String.ext (charListLe_antisymm _ _ h1 h2)

/-- Sorting by key maps any two permuted member lists with duplicate-free
keys to the same list: this is the combinatorial heart of canonical form
uniqueness. -/
lemma sortFields_eq_of_perm (l₁ l₂ : List (String × Json)) (hp : l₁.Perm l₂)
    (hn : (l₁.map Prod.fst).Nodup) : sortFields l₁ = sortFields l₂ := by
  have hperm : (sortFields l₁).Perm (sortFields l₂) :=
    (List.perm_insertionSort fieldLe l₁).trans
      (hp.trans (List.perm_insertionSort fieldLe l₂).symm)
  have hs₁ : List.Sorted fieldLe (sortFields l₁) := List.sorted_insertionSort fieldLe l₁
  have hs₂ : List.Sorted fieldLe (sortFields l₂) := List.sorted_insertionSort fieldLe l₂
  have hn₁ : ((sortFields l₁).map Prod.fst).Nodup :=
    (((List.perm_insertionSort fieldLe l₁).map Prod.fst).nodup_iff).mpr hn
  have hn₂ : ((sortFields l₂).map Prod.fst).Nodup :=
    (((List.perm_insertionSort fieldLe l₂).map Prod.fst).nodup_iff).mpr
      ((hp.map Prod.fst).nodup_iff.mp hn)
  have hkey₁ : List.Pairwise (fun p q : String × Json => p.1 ≠ q.1) (sortFields l₁) :=
    List.pairwise_map.mp hn₁
  have hkey₂ : List.Pairwise (fun p q : String × Json => p.1 ≠ q.1) (sortFields l₂) :=
    List.pairwise_map.mp hn₂
  haveI : IsAntisymm (String × Json) (fun p q => fieldLe p q ∧ p.1 ≠ q.1) :=
    ⟨fun _ _ h1 h2 => absurd (key_eq_of_fieldLe_both h1.1 h2.1) h1.2⟩
  exact List.eq_of_perm_of_sorted hperm (hs₁.and hkey₁) (hs₂.and hkey₂)

/-- Duplicate-free member names, the invariant every parsed Python dict
satisfies. -/
def keysNodup (fs : List (String × Json)) : Bool :=
  decide ((fs.map Prod.fst).Nodup)

mutual
/-- Equality of JSON documents as values: scalars must agree exactly,
arrays elementwise in order, and objects must be duplicate-free key maps
with the same size whose members match up to value equivalence,
irrespective of member order. -/
def jsonEquiv : Json → Json → Bool
  | .null, .null => true
  | .bool a, .bool b => a == b
  | .num a, .num b => a == b
  | .nan, .nan => true
  | .str a, .str b => a == b
  | .arr xs, .arr ys => jsonEquivList xs ys
  | .obj fs, .obj gs =>
      keysNodup fs && keysNodup gs && fs.length == gs.length && jsonEquivFields fs gs
  | _, _ => false
termination_by structural v _ => v

/-- Elementwise value equality of arrays. -/
def jsonEquivList : List Json → List Json → Bool
  | [], [] => true
  | x :: xs, y :: ys => jsonEquiv x y && jsonEquivList xs ys
  | _, _ => false
termination_by structural l _ => l

/-- Every member of the first object is found by name in the second with
an equivalent value. -/
def jsonEquivFields : List (String × Json) → List (String × Json) → Bool
  | [], _ => true
  | (k, v) :: fs, gs =>
      (match gs.lookup k with
       | some w => jsonEquiv v w
       | none => false) && jsonEquivFields fs gs
termination_by structural l _ => l
end

/-- A successful lookup exhibits membership. -/
lemma mem_of_lookup {k : String} {v : Json} :
    ∀ {gs : List (String × Json)}, gs.lookup k = some v → (k, v) ∈ gs := by
  intro gs
  induction gs with
  | nil => intro h; cases h
  | cons p rest ih =>
      intro h
      cases p with
      | mk k2 v2 =>
          by_cases hk : k == k2
          · simp only [List.lookup, hk] at h
            cases h
            exact List.mem_cons.mpr (Or.inl (by rw [show k = k2 from by simpa using hk]))
          · simp only [List.lookup, hk] at h
            exact List.mem_cons.mpr (Or.inr (ih h))

/-- canonFields is the member-wise canonicalization map. -/
lemma canonFields_eq_map (fs : List (String × Json)) :
    canonFields fs = fs.map (fun p => (p.1, canonicalize_value p.2)) := by
  induction fs with
  | nil => rfl
  | cons p rest ih => cases p; simp [canonFields, ih]

mutual
/-- Value-equal documents have identical canonical forms: the core of
canonicalization order insensitivity. -/
theorem canonVal_eq_of_equiv : ∀ v w, jsonEquiv v w = true →
    canonicalize_value v = canonicalize_value w
  | .null, .null, _ => rfl
  | .bool a, .bool b, h => by
      simp only [jsonEquiv] at h
      rw [show a = b from by simpa using h]
  | .num a, .num b, h => by
      simp only [jsonEquiv] at h
      rw [show a = b from by simpa using h]
  | .nan, .nan, _ => rfl
  | .str a, .str b, h => by
      simp only [jsonEquiv] at h
      rw [show a = b from by simpa using h]
  | .arr xs, .arr ys, h => by
      simp only [jsonEquiv] at h
      simp only [canonicalize_value]
      rw [canonList_eq_of_equivList xs ys h]
  | .obj fs, .obj gs, h => by
      simp only [jsonEquiv, Bool.and_eq_true] at h
      obtain ⟨⟨⟨h1, h2⟩, h3⟩, h4⟩ := h
      have hn1 : (fs.map Prod.fst).Nodup := of_decide_eq_true h1
      have hlen : fs.length = gs.length := by simpa using h3
      have hsub : ∀ p ∈ canonFields fs, p ∈ canonFields gs :=
        canonFields_subset fs gs h4
      have hnp : (canonFields fs).Nodup := by
        apply List.Nodup.of_map Prod.fst
        rw [canonFields_eq_map, List.map_map]
        exact hn1
      have hsp : (canonFields fs).Subperm (canonFields gs) :=
        List.subperm_of_subset hnp hsub
      have hlen2 : (canonFields gs).length ≤ (canonFields fs).length := by
        rw [canonFields_eq_map, canonFields_eq_map, List.length_map, List.length_map, hlen]
      have hperm : (canonFields fs).Perm (canonFields gs) :=
        hsp.perm_of_length_le hlen2
      have hkeys : ((canonFields fs).map Prod.fst).Nodup := by
        rw [canonFields_eq_map, List.map_map]
        exact hn1
      simp only [canonicalize_value]
      rw [sortFields_eq_of_perm _ _ hperm hkeys]
  | .null, .bool _, h => nomatch h
  | .null, .num _, h => nomatch h
  | .null, .nan, h => nomatch h
  | .null, .str _, h => nomatch h
  | .null, .arr _, h => nomatch h
  | .null, .obj _, h => nomatch h
  | .bool _, .null, h => nomatch h
  | .bool _, .num _, h => nomatch h
  | .bool _, .nan, h => nomatch h
  | .bool _, .str _, h => nomatch h
  | .bool _, .arr _, h => nomatch h
  | .bool _, .obj _, h => nomatch h
  | .num _, .null, h => nomatch h
  | .num _, .bool _, h => nomatch h
  | .num _, .nan, h => nomatch h
  | .num _, .str _, h => nomatch h
  | .num _, .arr _, h => nomatch h
  | .num _, .obj _, h => nomatch h
  | .nan, .null, h => nomatch h
  | .nan, .bool _, h => nomatch h
  | .nan, .num _, h => nomatch h
  | .nan, .str _, h => nomatch h
  | .nan, .arr _, h => nomatch h
  | .nan, .obj _, h => nomatch h
  | .str _, .null, h => nomatch h
  | .str _, .bool _, h => nomatch h
  | .str _, .num _, h => nomatch h
  | .str _, .nan, h => nomatch h
  | .str _, .arr _, h => nomatch h
  | .str _, .obj _, h => nomatch h
  | .arr _, .null, h => nomatch h
  | .arr _, .bool _, h => nomatch h
  | .arr _, .num _, h => nomatch h
  | .arr _, .nan, h => nomatch h
  | .arr _, .str _, h => nomatch h
  | .arr _, .obj _, h => nomatch h
  | .obj _, .null, h => nomatch h
  | .obj _, .bool _, h => nomatch h
  | .obj _, .num _, h => nomatch h
  | .obj _, .nan, h => nomatch h
  | .obj _, .str _, h => nomatch h
  | .obj _, .arr _, h => nomatch h
termination_by structural v _ _ => v

/-- Elementwise canonical forms of value-equal arrays agree. -/
theorem canonList_eq_of_equivList : ∀ xs ys, jsonEquivList xs ys = true →
    canonList xs = canonList ys
  | [], [], _ => rfl
  | x :: xs, y :: ys, h => by
      simp only [jsonEquivList, Bool.and_eq_true] at h
      simp only [canonList]
      rw [canonVal_eq_of_equiv x y h.1, canonList_eq_of_equivList xs ys h.2]
  | [], _ :: _, h => nomatch h
  | _ :: _, [], h => nomatch h
termination_by structural l _ _ => l

/-- Each canonicalized member of the first object occurs among the
canonicalized members of the second. -/
theorem canonFields_subset : ∀ fs gs, jsonEquivFields fs gs = true →
    ∀ p ∈ canonFields fs, p ∈ canonFields gs
  | [], _, _, p, hp => by simp [canonFields] at hp
  | (k, v) :: fs, gs, h, p, hp => by
      simp only [jsonEquivFields, Bool.and_eq_true] at h
      obtain ⟨h1, h2⟩ := h
      cases hl : gs.lookup k with
      | none => rw [hl] at h1; exact absurd h1 (by simp)
      | some w =>
          rw [hl] at h1
          rcases List.mem_cons.mp hp with hp1 | hp2
          · subst hp1
            have hw : (k, w) ∈ gs := mem_of_lookup hl
            rw [show canonicalize_value v = canonicalize_value w from
              canonVal_eq_of_equiv v w h1]
            rw [canonFields_eq_map]
            exact List.mem_map.mpr ⟨(k, w), hw, rfl⟩
          · exact canonFields_subset fs gs h2 p hp2
termination_by structural l _ _ _ _ => l
end

/-- C1: canonicalization is order insensitive: any two JSON documents
that are equal as values (equal scalars, arrays elementwise, objects as
duplicate-free key maps irrespective of member order) canonicalize to the
identical byte sequence; in particular the two member orders of the
object with b mapped to 1 and a mapped to 2 both canonicalize to the
UTF-8 bytes of the compact text with keys sorted and no whitespace. -/
theorem c1_canonicalization_order_insensitive :
    (∀ v w, jsonEquiv v w = true → canonicalize_json v = canonicalize_json w) ∧
    canonicalize_json (.obj [("b", .num 1), ("a", .num 2)]) =
      Except.ok (utf8Bytes "\x7b\"a\":2,\"b\":1\x7d") ∧
    canonicalize_json (.obj [("a", .num 2), ("b", .num 1)]) =
      Except.ok (utf8Bytes "\x7b\"a\":2,\"b\":1\x7d") := by
  refine ⟨?_, rfl, rfl⟩
  intro v w h
  simp only [canonicalize_json, canonicalBytes]
  rw [canonVal_eq_of_equiv v w h]

/-- C1 witness: the two textual orders of the example object are equal as
values, and the general theorem sends them to the same bytes. -/
theorem c1_canonicalization_order_insensitive_witness :
    jsonEquiv (.obj [("b", .num 1), ("a", .num 2)]) (.obj [("a", .num 2), ("b", .num 1)]) =
      true ∧
    canonicalize_json (.obj [("b", .num 1), ("a", .num 2)]) =
      canonicalize_json (.obj [("a", .num 2), ("b", .num 1)]) :=
  ⟨by decide, c1_canonicalization_order_insensitive.1 _ _ (by decide)⟩
